import Mathlib

/-!
Verification of the distribution-descriptor layer of squigglepy
(`squigglepy/distributions.py`) against its specification.

Shallow embedding choices:
* Python numbers are modelled as rationals (`ℚ`); the external
  standard-normal quantile primitive (`scipy.stats.norm.ppf`) and the
  natural-logarithm primitive (`np.log`) are abstract parameters
  `ppf log : ℚ → ℚ`, exactly as the spec treats them (external,
  consumed but not implemented).
* A constructor that can `raise ValueError(msg)` becomes a function into
  `Except String Dist`; the message strings are copied verbatim from the
  source.  The spec's error taxonomy (§7) is modelled by classifier
  functions from message to error kind.
* Python runtime values (needed for `bernoulli`'s `isinstance` checks and
  `discrete`'s duck typing) are modelled by the inductive `PyVal`.
* `BaseDistribution.__init__` initialises every field to `None`; the
  record `Dist` carries the fields the verified constructors touch
  (`x, y, n, p, t, credibility, mean, sd, lclip, rclip, items, type`).
  The remaining always-`None` fields of the source base class
  (`a, b, shape, scale, left, mode, right, lam, dists, weights`) belong to
  variants (beta, gamma, triangular, poisson, exponential, mixture, ...)
  that no verified constructor writes to; they are omitted from the record.
-/

namespace Squigglepy

/-- Model of a Python runtime value, sufficient for the `isinstance`
checks performed by `BernoulliDistribution` and `DiscreteDistribution`.
`bool` is kept separate because Python's `bool` is a subclass of `int`
(so `isinstance(True, int)` is `True`). -/
inductive PyVal where
  | int (n : ℤ)
  | float (q : ℚ)
  | bool (b : Bool)
  | str (s : String)
  | list (xs : List PyVal)
  | dict (kvs : List (PyVal × PyVal))
  | pyNone

/-- Python `isinstance(v, float)`. -/
def PyVal.isinstanceFloat : PyVal → Bool
  | .float _ => true
  | _ => false

/-- Python `isinstance(v, int)` (true for `bool` since `bool <: int`). -/
def PyVal.isinstanceInt : PyVal → Bool
  | .int _ => true
  | .bool _ => true
  | _ => false

/-- Python `isinstance(v, dict)`. -/
def PyVal.isinstanceDict : PyVal → Bool
  | .dict _ => true
  | _ => false

/-- Python `isinstance(v, list)`. -/
def PyVal.isinstanceList : PyVal → Bool
  | .list _ => true
  | _ => false

/-- Numeric value of a Python number (used for the comparisons
`p < 0 or p > 1`; only ever applied to values that passed a numeric
`isinstance` check, the catch-all `0` is unreachable there). -/
def PyVal.toQ : PyVal → ℚ
  | .int n => (n : ℚ)
  | .float q => q
  | .bool b => if b then 1 else 0
  | _ => 0

/-- A distribution descriptor: the fields of the source's
`BaseDistribution` that the verified constructors write, each `None`able
as in the source. -/
structure Dist where
  x : Option ℚ
  y : Option ℚ
  n : Option PyVal
  p : Option PyVal
  t : Option ℚ
  credibility : Option ℚ
  mean : Option ℚ
  sd : Option ℚ
  lclip : Option ℚ
  rclip : Option ℚ
  items : Option PyVal
  type : String

/-- `BaseDistribution.__init__`: every field starts out `None`. -/
def baseDist : Dist :=
  { x := none, y := none, n := none, p := none, t := none, credibility := none,
    mean := none, sd := none, lclip := none, rclip := none, items := none,
    type := "BaseDistribution" }

/-! ### Error messages (verbatim from the source) and the spec's §7 taxonomy -/

def rangeOrderMsg : String := "`high value` cannot be lower than `low value`"

def conflictNeitherMsg : String := "must define either x/y or mean/sd"

def conflictBothMsg : String := "must define either x/y or mean/sd -- cannot define both"

def conflictTdistMsg : String := "must define either both `x` and `y` or neither."

def lognormDomainMsg : String := "lognormal distribution must have values >= 0."

def bernoulliTypeMsg : String := "bernoulli p must be a float or int"

def bernoulliRangeMsg : String := "bernoulli p must be 0-1"

def discreteTypeMsg : String := "inputs to discrete must be a dict or list"

/-- Spec §7: `RangeOrderError` — low bound exceeds high bound. -/
def isRangeOrderError (e : String) : Bool :=
  e == rangeOrderMsg

/-- Spec §7: `ParameterConflictError` — both an interval and direct
mean/sd (or both/neither endpoints) supplied where exactly one form is
required. -/
def isParameterConflictError (e : String) : Bool :=
  e == conflictNeitherMsg || e == conflictBothMsg || e == conflictTdistMsg

/-- Spec §7: `DomainError` — value outside the distribution's legal
domain. -/
def isDomainError (e : String) : Bool :=
  e == lognormDomainMsg || e == bernoulliRangeMsg

/-- Spec §7: `ValidationError` — structurally wrong input shape. -/
def isValidationError (e : String) : Bool :=
  e == discreteTypeMsg || e == bernoulliTypeMsg

/-! ### Interval constructors -/

/-- `self.x is not None and self.y is not None and self.x > self.y`. -/
def rangeBad : Option ℚ → Option ℚ → Bool
  | some a, some b => decide (b < a)
  | _, _ => false

/-- `self.x is not None and self.x <= 0` (lognormal domain check). -/
def lowNonPos : Option ℚ → Bool
  | some a => decide (a ≤ 0)
  | none => false

/-- `NormalDistribution.__init__`: field assignments, the three guard
checks, the `mean = 0` default, then credible-interval inference. -/
def NormalDistribution (ppf : ℚ → ℚ) (x y mean sd : Option ℚ)
    (credibility : ℚ) (lclip rclip : Option ℚ) : Except String Dist :=
  if rangeBad x y then Except.error rangeOrderMsg
  else if (x.isNone || y.isNone) && sd.isNone then Except.error conflictNeitherMsg
  else if (x.isSome || y.isSome) && sd.isSome then Except.error conflictBothMsg
  else
    let mean1 : Option ℚ := if sd.isSome && mean.isNone then some 0 else mean
    if mean1.isNone && sd.isNone then
      let m : ℚ := (x.getD 0 + y.getD 0) / 2
      let cdfValue : ℚ := 1 / 2 + 1 / 2 * (credibility / 100)
      let normedSigma : ℚ := ppf cdfValue
      let s : ℚ := (y.getD 0 - m) / normedSigma
      Except.ok { baseDist with
        x := x, y := y, credibility := some credibility,
        mean := some m, sd := some s, lclip := lclip, rclip := rclip,
        type := "norm" }
    else
      Except.ok { baseDist with
        x := x, y := y, credibility := some credibility,
        mean := mean1, sd := sd, lclip := lclip, rclip := rclip,
        type := "norm" }

/-- The `norm` factory function (argument order of the source). -/
def norm (ppf : ℚ → ℚ) (x y : Option ℚ) (credibility : ℚ)
    (mean sd lclip rclip : Option ℚ) : Except String Dist :=
  NormalDistribution ppf x y mean sd credibility lclip rclip

/-- `LognormalDistribution.__init__`: as `NormalDistribution` plus the
`x <= 0` domain check, with inference done in log-space. -/
def LognormalDistribution (ppf log : ℚ → ℚ) (x y mean sd : Option ℚ)
    (credibility : ℚ) (lclip rclip : Option ℚ) : Except String Dist :=
  if rangeBad x y then Except.error rangeOrderMsg
  else if lowNonPos x then Except.error lognormDomainMsg
  else if (x.isNone || y.isNone) && sd.isNone then Except.error conflictNeitherMsg
  else if (x.isSome || y.isSome) && sd.isSome then Except.error conflictBothMsg
  else
    let mean1 : Option ℚ := if sd.isSome && mean.isNone then some 0 else mean
    if mean1.isNone && sd.isNone then
      let m : ℚ := (log (x.getD 0) + log (y.getD 0)) / 2
      let cdfValue : ℚ := 1 / 2 + 1 / 2 * (credibility / 100)
      let normedSigma : ℚ := ppf cdfValue
      let s : ℚ := (log (y.getD 0) - m) / normedSigma
      Except.ok { baseDist with
        x := x, y := y, credibility := some credibility,
        mean := some m, sd := some s, lclip := lclip, rclip := rclip,
        type := "lognorm" }
    else
      Except.ok { baseDist with
        x := x, y := y, credibility := some credibility,
        mean := mean1, sd := sd, lclip := lclip, rclip := rclip,
        type := "lognorm" }

/-- The `lognorm` factory function (argument order of the source). -/
def lognorm (ppf log : ℚ → ℚ) (x y : Option ℚ) (credibility : ℚ)
    (mean sd lclip rclip : Option ℚ) : Except String Dist :=
  LognormalDistribution ppf log x y mean sd credibility lclip rclip

/-- The `to` dispatcher: lognormal if `x > 0`, else normal, passing
`x`, `y`, `credibility`, `lclip`, `rclip` through.  (`to` is a reserved
token in Lean, hence the name `toDist`.) -/
def toDist (ppf log : ℚ → ℚ) (x y credibility : ℚ)
    (lclip rclip : Option ℚ) : Except String Dist :=
  if x > 0 then lognorm ppf log (some x) (some y) credibility none none lclip rclip
  else norm ppf (some x) (some y) credibility none none lclip rclip

/-! ### Binomial, bernoulli, discrete -/

/-- `BinomialDistribution.__init__`: stores `n` and `p`, no checks. -/
def BinomialDistribution (n p : PyVal) : Except String Dist :=
  Except.ok { baseDist with n := some n, p := some p, type := "binomial" }

/-- The `binomial` factory function. -/
def binomial (n p : PyVal) : Except String Dist :=
  BinomialDistribution n p

/-- `BernoulliDistribution.__init__`: the type check is the source's
literal condition `not isinstance(p, float) or isinstance(p, int)`
(the `not` binds only to the first disjunct), then the range check
`p < 0 or p > 1`. -/
def BernoulliDistribution (p : PyVal) : Except String Dist :=
  if !p.isinstanceFloat || p.isinstanceInt then Except.error bernoulliTypeMsg
  else if decide (p.toQ < 0) || decide (p.toQ > 1) then Except.error bernoulliRangeMsg
  else Except.ok { baseDist with p := some p, type := "bernoulli" }

/-- The `bernoulli` factory function. -/
def bernoulli (p : PyVal) : Except String Dist :=
  BernoulliDistribution p

/-- `DiscreteDistribution.__init__`: accepts exactly dicts and lists,
stores `items` unchanged. -/
def DiscreteDistribution (items : PyVal) : Except String Dist :=
  if !items.isinstanceDict && !items.isinstanceList then Except.error discreteTypeMsg
  else Except.ok { baseDist with items := some items, type := "discrete" }

/-- The `discrete` factory function. -/
def discrete (items : PyVal) : Except String Dist :=
  DiscreteDistribution items

/-! ### Student-t family -/

/-- `TDistribution.__init__`: both-or-neither endpoints, ordering check,
and `credibility` forced to `None` when no interval is given. -/
def TDistribution (x y : Option ℚ) (t credibility : ℚ)
    (lclip rclip : Option ℚ) : Except String Dist :=
  if (x.isNone || y.isNone) && !(x.isNone && y.isNone) then
    Except.error conflictTdistMsg
  else if rangeBad x y then Except.error rangeOrderMsg
  else
    Except.ok { baseDist with
      x := x, y := y, t := some t,
      credibility := if x.isNone then none else some credibility,
      lclip := lclip, rclip := rclip, type := "tdist" }

/-- The `tdist` factory function. -/
def tdist (x y : Option ℚ) (t credibility : ℚ)
    (lclip rclip : Option ℚ) : Except String Dist :=
  TDistribution x y t credibility lclip rclip

/-- `LogTDistribution.__init__`: identical control flow to
`TDistribution`, tagged `log_tdist`. -/
def LogTDistribution (x y : Option ℚ) (t credibility : ℚ)
    (lclip rclip : Option ℚ) : Except String Dist :=
  if (x.isNone || y.isNone) && !(x.isNone && y.isNone) then
    Except.error conflictTdistMsg
  else if rangeBad x y then Except.error rangeOrderMsg
  else
    Except.ok { baseDist with
      x := x, y := y, t := some t,
      credibility := if x.isNone then none else some credibility,
      lclip := lclip, rclip := rclip, type := "log_tdist" }

/-- The `log_tdist` factory function. -/
def log_tdist (x y : Option ℚ) (t credibility : ℚ)
    (lclip rclip : Option ℚ) : Except String Dist :=
  LogTDistribution x y t credibility lclip rclip

/-! ### Claims -/

/-- C1: for `x ≤ y` with `mean`/`sd` not supplied and `credibility ∈ (0,100)`
(default 90), `norm(x, y, credibility)` stores `mean = (x+y)/2` and
`sd = (y - mean) / Φ⁻¹(0.5 + 0.5·credibility/100)`, and for `x > 0`
`lognorm(x, y, credibility)` stores the log-space parameters
`mean = (ln x + ln y)/2` and `sd = (ln y - mean) / Φ⁻¹(0.5 + 0.5·credibility/100)`. -/
theorem norm_lognorm_interval_inference (ppf log : ℚ → ℚ) (x y credibility : ℚ)
    (hxy : x ≤ y) (_hc0 : 0 < credibility) (_hc1 : credibility < 100) :
    (norm ppf (some x) (some y) credibility none none none none =
      Except.ok { baseDist with
        x := some x, y := some y, credibility := some credibility,
        mean := some ((x + y) / 2),
        sd := some ((y - (x + y) / 2) / ppf (1 / 2 + 1 / 2 * (credibility / 100))),
        type := "norm" }) ∧
    (0 < x →
      lognorm ppf log (some x) (some y) credibility none none none none =
      Except.ok { baseDist with
        x := some x, y := some y, credibility := some credibility,
        mean := some ((log x + log y) / 2),
        sd := some ((log y - (log x + log y) / 2) /
          ppf (1 / 2 + 1 / 2 * (credibility / 100))),
        type := "lognorm" }) := by
  constructor
  · simp [norm, NormalDistribution, rangeBad, baseDist, not_lt.mpr hxy]
  · intro hx
    simp [lognorm, LognormalDistribution, rangeBad, lowNonPos, baseDist,
      not_lt.mpr hxy, not_le.mpr hx]

/-- Witness for C1 at `ppf = const 2`, `log = const 3`, `x = 1`, `y = 10`,
`credibility = 90`. -/
theorem norm_lognorm_interval_inference_witness :
    (1:ℚ) ≤ 10 ∧ (0:ℚ) < 90 ∧ (90:ℚ) < 100 ∧ (0:ℚ) < 1 ∧
    norm (fun _ => (2:ℚ)) (some 1) (some 10) 90 none none none none =
      Except.ok { baseDist with
        x := some 1, y := some 10, credibility := some 90,
        mean := some ((1 + 10) / 2),
        sd := some ((10 - (1 + 10) / 2) / 2),
        type := "norm" } ∧
    lognorm (fun _ => (2:ℚ)) (fun _ => (3:ℚ)) (some 1) (some 10) 90
        none none none none =
      Except.ok { baseDist with
        x := some 1, y := some 10, credibility := some 90,
        mean := some ((3 + 3) / 2),
        sd := some ((3 - (3 + 3) / 2) / 2),
        type := "lognorm" } :=
  ⟨by decide, by decide, by decide, by decide,
   (norm_lognorm_interval_inference (fun _ => 2) (fun _ => 3) 1 10 90
     (by decide) (by decide) (by decide)).1,
   (norm_lognorm_interval_inference (fun _ => 2) (fun _ => 3) 1 10 90
     (by decide) (by decide) (by decide)).2 (by decide)⟩

/-- C2: `to(x, y, credibility, lclip, rclip)` dispatches to the lognormal
constructor when `x > 0` and to the normal constructor when `x ≤ 0`,
passing `x`, `y`, `credibility`, `lclip`, `rclip` through unchanged; in
particular `to(1, 10)` is a lognormal descriptor and `to(-10, 10)` is a
normal descriptor with mean `0`. -/
theorem toDist_dispatch (ppf log : ℚ → ℚ) (x y credibility : ℚ)
    (lclip rclip : Option ℚ) :
    (0 < x → toDist ppf log x y credibility lclip rclip =
      lognorm ppf log (some x) (some y) credibility none none lclip rclip) ∧
    (x ≤ 0 → toDist ppf log x y credibility lclip rclip =
      norm ppf (some x) (some y) credibility none none lclip rclip) ∧
    (∃ d, toDist ppf log 1 10 90 none none = Except.ok d ∧ d.type = "lognorm") ∧
    (∃ d, toDist ppf log (-10) 10 90 none none = Except.ok d ∧
      d.type = "norm" ∧ d.mean = some 0) := by
  refine ⟨fun hx => by simp [toDist, hx], fun hx => by simp [toDist, not_lt.mpr hx], ?_, ?_⟩
  · refine ⟨{ baseDist with
      x := some 1, y := some 10, credibility := some 90,
      mean := some ((log 1 + log 10) / 2),
      sd := some ((log 10 - (log 1 + log 10) / 2) / ppf (1 / 2 + 1 / 2 * (90 / 100))),
      type := "lognorm" }, ?_, rfl⟩
    norm_num [toDist, lognorm, LognormalDistribution, rangeBad, lowNonPos, baseDist]
  · refine ⟨{ baseDist with
      x := some (-10), y := some 10, credibility := some 90,
      mean := some 0,
      sd := some ((10 : ℚ) / ppf (1 / 2 + 1 / 2 * (90 / 100))),
      type := "norm" }, ?_, rfl, rfl⟩
    norm_num [toDist, norm, NormalDistribution, rangeBad, baseDist]

/-- Witness for C2 at `ppf = const 2`, `log = const 3`. -/
theorem toDist_dispatch_witness :
    (0:ℚ) < 1 ∧
    toDist (fun _ => (2:ℚ)) (fun _ => (3:ℚ)) 1 10 90 none none =
      lognorm (fun _ => (2:ℚ)) (fun _ => (3:ℚ)) (some 1) (some 10) 90
        none none none none ∧
    (-10:ℚ) ≤ 0 ∧
    toDist (fun _ => (2:ℚ)) (fun _ => (3:ℚ)) (-10) 10 90 none none =
      norm (fun _ => (2:ℚ)) (some (-10)) (some 10) 90 none none none none :=
  ⟨by decide,
   (toDist_dispatch (fun _ => 2) (fun _ => 3) 1 10 90 none none).1 (by decide),
   by decide,
   (toDist_dispatch (fun _ => 2) (fun _ => 3) (-10) 10 90 none none).2.1 (by decide)⟩

/-- C3 counterexample: with both endpoints supplied out of order together
with `sd`, `norm(x=2, y=1, sd=3)` fails with the range-order error, not a
parameter-conflict error, so the claim's unconditional statement is false. -/
theorem conflict_claim_counterexample :
    norm (fun _ => (2:ℚ)) (some 2) (some 1) 90 none (some 3) none none =
      Except.error rangeOrderMsg ∧
    isParameterConflictError rangeOrderMsg = false := ⟨rfl, rfl⟩

/-- C3 (amended): provided the range-order check does not fire, if at
least one endpoint is supplied together with `sd`, or neither a complete
interval nor `sd` is supplied, then `norm` fails with a
`ParameterConflictError`, and so does `lognorm` provided additionally its
domain check does not fire. -/
theorem norm_lognorm_conflict_error (ppf log : ℚ → ℚ) (x y mean sd : Option ℚ)
    (credibility : ℚ) (lclip rclip : Option ℚ)
    (hord : rangeBad x y = false)
    (hcond : ((x.isNone || y.isNone) = true ∧ sd = none) ∨
             ((x.isSome || y.isSome) = true ∧ sd.isSome = true)) :
    (∃ e, norm ppf x y credibility mean sd lclip rclip = Except.error e ∧
      isParameterConflictError e = true) ∧
    (lowNonPos x = false →
      ∃ e, lognorm ppf log x y credibility mean sd lclip rclip = Except.error e ∧
        isParameterConflictError e = true) := by
  constructor
  · rcases hcond with ⟨hxy, rfl⟩ | ⟨hxy, hsd⟩
    · exact ⟨conflictNeitherMsg, by simp [norm, NormalDistribution, hord, hxy], rfl⟩
    · obtain ⟨v, rfl⟩ := Option.isSome_iff_exists.mp hsd
      exact ⟨conflictBothMsg, by simp [norm, NormalDistribution, hord, hxy], rfl⟩
  · intro hdom
    rcases hcond with ⟨hxy, rfl⟩ | ⟨hxy, hsd⟩
    · exact ⟨conflictNeitherMsg,
        by simp [lognorm, LognormalDistribution, hord, hdom, hxy], rfl⟩
    · obtain ⟨v, rfl⟩ := Option.isSome_iff_exists.mp hsd
      exact ⟨conflictBothMsg,
        by simp [lognorm, LognormalDistribution, hord, hdom, hxy], rfl⟩

/-- Witness for the amended C3: `norm(x=1, y=2, sd=3)` and `norm()` both
fail with a `ParameterConflictError`. -/
theorem norm_lognorm_conflict_error_witness :
    (∃ e, norm (fun _ => (2:ℚ)) (some 1) (some 2) 90 none (some 3) none none =
      Except.error e ∧ isParameterConflictError e = true) ∧
    (∃ e, norm (fun _ => (2:ℚ)) none none 90 none none none none =
      Except.error e ∧ isParameterConflictError e = true) :=
  ⟨(norm_lognorm_conflict_error (fun _ => 2) (fun _ => 3) (some 1) (some 2)
      none (some 3) 90 none none rfl (Or.inr ⟨rfl, rfl⟩)).1,
   (norm_lognorm_conflict_error (fun _ => 2) (fun _ => 3) none none
      none none 90 none none rfl (Or.inl ⟨rfl, rfl⟩)).1⟩

/-- C4 (code bug): the source's type check
`not isinstance(p, float) or isinstance(p, int)` rejects every `int`,
contradicting its own error message "bernoulli p must be a float or int":
`bernoulli(1)` raises the type error even though `1 ∈ [0, 1]`; floats in
range are accepted and floats out of range get the domain error. -/
theorem bernoulli_rejects_int :
    bernoulli (PyVal.int 1) = Except.error bernoulliTypeMsg ∧
    isValidationError bernoulliTypeMsg = true ∧
    bernoulli (PyVal.float (1 / 2)) =
      Except.ok { baseDist with p := some (PyVal.float (1 / 2)), type := "bernoulli" } ∧
    bernoulli (PyVal.float (3 / 2)) = Except.error bernoulliRangeMsg ∧
    isDomainError bernoulliRangeMsg = true :=
  ⟨rfl, rfl,
   by norm_num [bernoulli, BernoulliDistribution, PyVal.isinstanceFloat,
     PyVal.isinstanceInt, PyVal.toQ],
   by norm_num [bernoulli, BernoulliDistribution, PyVal.isinstanceFloat,
     PyVal.isinstanceInt, PyVal.toQ],
   rfl⟩

/-- C5 counterexample: `binomial(1, 1.5)` returns a descriptor (with the
out-of-range probability stored unchanged) instead of failing with a
`ValidationError`. -/
theorem binomial_accepts_out_of_range :
    (1:ℚ) < 3 / 2 ∧
    binomial (PyVal.int 1) (PyVal.float (3 / 2)) =
      Except.ok { baseDist with
        n := some (PyVal.int 1), p := some (PyVal.float (3 / 2)),
        type := "binomial" } := ⟨by norm_num, rfl⟩

/-- C5 (amended): `binomial(n, p)` performs no validation at all: for
every `n` and `p` (including `p` outside `[0, 1]`) it returns a
descriptor storing `n` and `p` unchanged. -/
theorem binomial_stores_unchanged (n p : PyVal) :
    binomial n p =
      Except.ok { baseDist with n := some n, p := some p, type := "binomial" } := rfl

/-- C6 counterexample: `lognorm(x=-1, y=-2)` has a supplied low endpoint
`x ≤ 0`, yet fails with the range-order error, not a `DomainError`, so
the claim's unconditional statement is false. -/
theorem lognorm_domain_counterexample :
    lognorm (fun _ => (2:ℚ)) (fun _ => (3:ℚ)) (some (-1)) (some (-2)) 90
      none none none none = Except.error rangeOrderMsg ∧
    isDomainError rangeOrderMsg = false := ⟨rfl, rfl⟩

/-- C6 (amended): for every supplied low endpoint `x ≤ 0`, `lognorm`
fails with a `DomainError` provided the range-order check does not fire
(`y` absent, or `x ≤ y`); in particular `lognorm(x=-1, y=5)` fails so. -/
theorem lognorm_low_nonpos_domain_error (ppf log : ℚ → ℚ) (x : ℚ)
    (y mean sd : Option ℚ) (credibility : ℚ) (lclip rclip : Option ℚ)
    (hx : x ≤ 0) (hord : rangeBad (some x) y = false) :
    lognorm ppf log (some x) y credibility mean sd lclip rclip =
      Except.error lognormDomainMsg ∧
    isDomainError lognormDomainMsg = true := by
  refine ⟨?_, rfl⟩
  simp [lognorm, LognormalDistribution, hord, lowNonPos, hx]

/-- Witness for the amended C6: `lognorm(x=-1, y=5)` fails with the
`DomainError`. -/
theorem lognorm_low_nonpos_domain_error_witness :
    (-1:ℚ) ≤ 0 ∧
    (lognorm (fun _ => (2:ℚ)) (fun _ => (3:ℚ)) (some (-1)) (some 5) 90
        none none none none = Except.error lognormDomainMsg ∧
      isDomainError lognormDomainMsg = true) :=
  ⟨by decide,
   lognorm_low_nonpos_domain_error (fun _ => 2) (fun _ => 3) (-1) (some 5)
     none none 90 none none (by decide) rfl⟩

/-- C7: for `norm`, `lognorm`, `tdist` and `log_tdist`, whenever both
interval endpoints are supplied with `x > y`, construction fails with the
`RangeOrderError`, whatever the remaining arguments are. -/
theorem range_order_error_all (ppf log : ℚ → ℚ) (x y t credibility : ℚ)
    (mean sd lclip rclip : Option ℚ) (hxy : y < x) :
    norm ppf (some x) (some y) credibility mean sd lclip rclip =
      Except.error rangeOrderMsg ∧
    lognorm ppf log (some x) (some y) credibility mean sd lclip rclip =
      Except.error rangeOrderMsg ∧
    tdist (some x) (some y) t credibility lclip rclip =
      Except.error rangeOrderMsg ∧
    log_tdist (some x) (some y) t credibility lclip rclip =
      Except.error rangeOrderMsg ∧
    isRangeOrderError rangeOrderMsg = true := by
  refine ⟨?_, ?_, ?_, ?_, rfl⟩ <;>
    simp [norm, NormalDistribution, lognorm, LognormalDistribution,
      tdist, TDistribution, log_tdist, LogTDistribution, rangeBad, hxy]

/-- Witness for C7 at `x = 2`, `y = 1`. -/
theorem range_order_error_all_witness :
    (1:ℚ) < 2 ∧
    norm (fun _ => (2:ℚ)) (some 2) (some 1) 90 none none none none =
      Except.error rangeOrderMsg ∧
    lognorm (fun _ => (2:ℚ)) (fun _ => (3:ℚ)) (some 2) (some 1) 90
      none none none none = Except.error rangeOrderMsg ∧
    tdist (some 2) (some 1) 1 90 none none = Except.error rangeOrderMsg ∧
    log_tdist (some 2) (some 1) 1 90 none none = Except.error rangeOrderMsg ∧
    isRangeOrderError rangeOrderMsg = true :=
  ⟨by decide,
   range_order_error_all (fun _ => 2) (fun _ => 3) 2 1 1 90
     none none none none (by decide)⟩

/-- C8: `tdist` and `log_tdist` with both endpoints absent store
`credibility = None` regardless of the credibility argument. -/
theorem tdist_no_interval_credibility_none (t credibility : ℚ)
    (lclip rclip : Option ℚ) :
    tdist none none t credibility lclip rclip =
      Except.ok { baseDist with
        t := some t, lclip := lclip, rclip := rclip, type := "tdist" } ∧
    log_tdist none none t credibility lclip rclip =
      Except.ok { baseDist with
        t := some t, lclip := lclip, rclip := rclip, type := "log_tdist" } := by
  constructor <;>
    simp [tdist, TDistribution, log_tdist, LogTDistribution, rangeBad, baseDist]

/-- C9: `discrete(items)` succeeds exactly on dicts and lists, storing
`items` unchanged, and fails with the `ValidationError` on anything that
is neither. -/
theorem discrete_container_validation (items : PyVal) :
    ((items.isinstanceDict || items.isinstanceList) = true →
      discrete items =
        Except.ok { baseDist with items := some items, type := "discrete" }) ∧
    ((items.isinstanceDict || items.isinstanceList) = false →
      discrete items = Except.error discreteTypeMsg ∧
      isValidationError discreteTypeMsg = true) := by
  cases items <;>
    simp [discrete, DiscreteDistribution, PyVal.isinstanceDict, PyVal.isinstanceList,
      isValidationError]

/-- Witness for C9: the three recognized container shapes from the spec
construct successfully and `discrete(42)` fails. -/
theorem discrete_container_validation_witness :
    discrete (PyVal.dict [(PyVal.str "a", PyVal.float (1 / 10)),
        (PyVal.str "b", PyVal.float (9 / 10))]) =
      Except.ok { baseDist with
        items := some (PyVal.dict [(PyVal.str "a", PyVal.float (1 / 10)),
          (PyVal.str "b", PyVal.float (9 / 10))]),
        type := "discrete" } ∧
    discrete (PyVal.list [PyVal.list [PyVal.float (1 / 10), PyVal.str "a"],
        PyVal.list [PyVal.float (9 / 10), PyVal.str "b"]]) =
      Except.ok { baseDist with
        items := some (PyVal.list [PyVal.list [PyVal.float (1 / 10), PyVal.str "a"],
          PyVal.list [PyVal.float (9 / 10), PyVal.str "b"]]),
        type := "discrete" } ∧
    discrete (PyVal.list [PyVal.str "a", PyVal.str "b"]) =
      Except.ok { baseDist with
        items := some (PyVal.list [PyVal.str "a", PyVal.str "b"]),
        type := "discrete" } ∧
    (discrete (PyVal.int 42) = Except.error discreteTypeMsg ∧
      isValidationError discreteTypeMsg = true) :=
  ⟨(discrete_container_validation _).1 rfl,
   (discrete_container_validation _).1 rfl,
   (discrete_container_validation _).1 rfl,
   (discrete_container_validation _).2 rfl⟩

/-- C10: supplying `mean` alongside a well-ordered interval (with `sd`
omitted) skips the credible-interval inference: the descriptor keeps
`mean = m` and `sd = None`, for `norm` and (when `x > 0`) for `lognorm`. -/
theorem norm_interval_with_mean_skips_inference (ppf log : ℚ → ℚ)
    (x y m credibility : ℚ) (lclip rclip : Option ℚ) (hxy : x ≤ y) :
    (norm ppf (some x) (some y) credibility (some m) none lclip rclip =
      Except.ok { baseDist with
        x := some x, y := some y,
        credibility := some credibility, mean := some m,
        lclip := lclip, rclip := rclip, type := "norm" }) ∧
    (0 < x →
      lognorm ppf log (some x) (some y) credibility (some m) none lclip rclip =
      Except.ok { baseDist with
        x := some x, y := some y,
        credibility := some credibility, mean := some m,
        lclip := lclip, rclip := rclip, type := "lognorm" }) := by
  constructor
  · simp [norm, NormalDistribution, rangeBad, baseDist, not_lt.mpr hxy]
  · intro hx
    simp [lognorm, LognormalDistribution, rangeBad, lowNonPos, baseDist,
      not_lt.mpr hxy, not_le.mpr hx]

/-- Witness for C10 at `x = 1`, `y = 2`, `mean = 5`. -/
theorem norm_interval_with_mean_skips_inference_witness :
    (1:ℚ) ≤ 2 ∧ (0:ℚ) < 1 ∧
    norm (fun _ => (2:ℚ)) (some 1) (some 2) 90 (some 5) none none none =
      Except.ok { baseDist with
        x := some 1, y := some 2,
        credibility := some 90, mean := some 5, type := "norm" } ∧
    lognorm (fun _ => (2:ℚ)) (fun _ => (3:ℚ)) (some 1) (some 2) 90
        (some 5) none none none =
      Except.ok { baseDist with
        x := some 1, y := some 2,
        credibility := some 90, mean := some 5, type := "lognorm" } :=
  ⟨by decide, by decide,
   (norm_interval_with_mean_skips_inference (fun _ => 2) (fun _ => 3) 1 2 5 90
     none none (by decide)).1,
   (norm_interval_with_mean_skips_inference (fun _ => 2) (fun _ => 3) 1 2 5 90
     none none (by decide)).2 (by decide)⟩

end Squigglepy
